import Mathlib

/-!
Verification of the Titan-V2-Embeddings notebook
(`src/embeddings/Titan-V2-Embeddings.ipynb`).

The notebook is glue code around a remote embedding endpoint:
`get_bedrock_client` builds an SDK client, the `TitanEmbeddings` helper
serializes `{"inputText": text, "dimensions": dimensions, "normalize":
normalize}` with `json.dumps`, performs one `invoke_model` call, parses the
response with `json.loads` and returns its `embedding` field; `TitanV2Model`
adapts that helper to the MTEB calling convention (`process_dict_text`,
`reorg_text`, `invoke_model`, `encode`, `encode_queries`, `encode_corpus`).

The embedding below represents Python values flowing through this code as a
`Json` inductive, models the Python stdlib calls the notebook makes
(`json.dumps`, `json.loads`, `str.strip`, `str.lower`, `in`, truthiness,
slicing), and treats the remote SDK call as an oracle from requests to either
a raised exception or a raw response body.  Each helper call also returns the
list of remote requests it issued, so that "exactly one call per invocation"
and "one call per list element, in order" are provable statements.
-/

/-- A JSON value, also standing for the Python values the notebook passes
around (`None`, `bool`, `int`, `str`, `list`, `dict`).  Objects keep field
insertion order, as Python `dict` does.  (JSON floats do not occur in any
request the notebook builds; integer numerics suffice for the code paths
modelled here.) -/
inductive Json where
  | null : Json
  | bool (b : Bool) : Json
  | num (n : Int) : Json
  | str (s : String) : Json
  | arr (elems : List Json) : Json
  | obj (fields : List (String × Json)) : Json

/-- Hex digit character, lower case, as `json.dumps` emits in `\uXXXX`. -/
def hexDigit (n : Nat) : Char :=
  if n < 10 then Char.ofNat (48 + n) else Char.ofNat (87 + n)

/-- Four-digit lower-case hex rendering of a code point. -/
def hex4 (n : Nat) : String :=
  String.mk [hexDigit (n / 4096 % 16), hexDigit (n / 256 % 16),
             hexDigit (n / 16 % 16), hexDigit (n % 16)]

/-- Escaping of one character inside a JSON string literal, following
`json.dumps` defaults (`ensure_ascii=True`): the two mandatory escapes, the
short escapes for control characters that have them, `\uXXXX` for the other
control characters and for non-ASCII code points. -/
def jsonEscapeChar (c : Char) : String :=
  if c = '"' then "\\\""
  else if c = '\\' then "\\\\"
  else if c = '\n' then "\\n"
  else if c = '\t' then "\\t"
  else if c = '\r' then "\\r"
  else if c = '\x08' then "\\b"
  else if c = '\x0c' then "\\f"
  else if c.toNat < 32 ∨ 127 ≤ c.toNat then "\\u" ++ hex4 c.toNat
  else String.singleton c

/-- A JSON string literal as `json.dumps` renders it. -/
def jsonQuote (s : String) : String :=
  "\"" ++ String.join (s.data.map jsonEscapeChar) ++ "\""

mutual

/-- `json.dumps` with its default separators `", "` and `": "`, preserving
the insertion order of object fields as Python does. -/
def Json.dumps : Json → String
  | .null => "null"
  | .bool b => if b then "true" else "false"
  | .num n => toString n
  | .str s => jsonQuote s
  | .arr xs => "[" ++ Json.dumpsElems xs ++ "]"
  | .obj kvs => "\x7b" ++ Json.dumpsFields kvs ++ "\x7d"

/-- Comma-separated serialization of array elements. -/
def Json.dumpsElems : List Json → String
  | [] => ""
  | [x] => Json.dumps x
  | x :: y :: rest => Json.dumps x ++ ", " ++ Json.dumpsElems (y :: rest)

/-- Comma-separated serialization of object fields. -/
def Json.dumpsFields : List (String × Json) → String
  | [] => ""
  | [(k, v)] => jsonQuote k ++ ": " ++ Json.dumps v
  | (k, v) :: kv :: rest =>
      jsonQuote k ++ ": " ++ Json.dumps v ++ ", " ++ Json.dumpsFields (kv :: rest)

end

/-- JSON whitespace predicate (also the ASCII core of Python `str.strip`,
extended below). -/
def jsonWs (c : Char) : Bool :=
  c == ' ' || c == '\t' || c == '\n' || c == '\r'

/-- Skip JSON whitespace. -/
def skipWs : List Char → List Char
  | [] => []
  | c :: rest => if jsonWs c then skipWs rest else c :: rest

/-- Value of a hex digit, as in `\uXXXX` escapes. -/
def hexVal (c : Char) : Option Nat :=
  if '0' ≤ c ∧ c ≤ '9' then some (c.toNat - 48)
  else if 'a' ≤ c ∧ c ≤ 'f' then some (c.toNat - 87)
  else if 'A' ≤ c ∧ c ≤ 'F' then some (c.toNat - 55)
  else none

/-- The character denoted by a one-character JSON escape. -/
def unescapeChar (c : Char) : Option Char :=
  if c = '"' then some '"'
  else if c = '\\' then some '\\'
  else if c = '/' then some '/'
  else if c = 'b' then some '\x08'
  else if c = 'f' then some '\x0c'
  else if c = 'n' then some '\n'
  else if c = 'r' then some '\r'
  else if c = 't' then some '\t'
  else none

/-- Body of a JSON string literal (after the opening quote): the decoded
characters and the remaining input after the closing quote. -/
def parseStringBody : List Char → Option (List Char × List Char)
  | [] => none
  | '"' :: rest => some ([], rest)
  | '\\' :: 'u' :: a :: b :: c :: d :: rest => do
      let na ← hexVal a
      let nb ← hexVal b
      let nc ← hexVal c
      let nd ← hexVal d
      let (cs, r) ← parseStringBody rest
      some (Char.ofNat (na * 4096 + nb * 256 + nc * 16 + nd) :: cs, r)
  | '\\' :: e :: rest => do
      let c ← unescapeChar e
      let (cs, r) ← parseStringBody rest
      some (c :: cs, r)
  | c :: rest => do
      let (cs, r) ← parseStringBody rest
      some (c :: cs, r)

/-- Longest digit run at the head of the input, accumulating its value. -/
def parseDigits : List Char → Nat → Nat → Option (Nat × List Char)
  | [], 0, _ => none
  | [], _, acc => some (acc, [])
  | c :: rest, seen, acc =>
      if '0' ≤ c ∧ c ≤ '9' then parseDigits rest (seen + 1) (acc * 10 + (c.toNat - 48))
      else if seen = 0 then none
      else some (acc, c :: rest)

/-- Drop an expected literal (such as `null` or `true`) from the input. -/
def expectLit : List Char → List Char → Option (List Char)
  | [], s => some s
  | c :: lit, d :: s => if c = d then expectLit lit s else none
  | _ :: _, [] => none

mutual

/-- Recursive-descent JSON value parser, fuelled; returns the value and the
unconsumed input.  Models `json.loads` on the fragment without fractional or
exponent numbers; in `reorg_text` (the only place the notebook parses
arbitrary strings) a successful non-`dict` parse and a parse failure lead to
the same result, so this fragment is behaviour-equivalent there. -/
def parseVal : Nat → List Char → Option (Json × List Char)
  | 0, _ => none
  | fuel + 1, s =>
    match skipWs s with
    | [] => none
    | c :: rest =>
      if c = 'n' then
        (expectLit ['u', 'l', 'l'] rest).map (fun r => (Json.null, r))
      else if c = 't' then
        (expectLit ['r', 'u', 'e'] rest).map (fun r => (Json.bool true, r))
      else if c = 'f' then
        (expectLit ['a', 'l', 's', 'e'] rest).map (fun r => (Json.bool false, r))
      else if c = '"' then
        (parseStringBody rest).map (fun p => (Json.str (String.mk p.1), p.2))
      else if c = '-' then
        (parseDigits rest 0 0).map (fun p => (Json.num (-(Int.ofNat p.1)), p.2))
      else if '0' ≤ c ∧ c ≤ '9' then
        (parseDigits (c :: rest) 0 0).map (fun p => (Json.num (Int.ofNat p.1), p.2))
      else if c = '[' then
        match skipWs rest with
        | ']' :: r => some (Json.arr [], r)
        | r => (parseElems fuel r).map (fun p => (Json.arr p.1, p.2))
      else if c = '\x7b' then
        match skipWs rest with
        | '\x7d' :: r => some (Json.obj [], r)
        | r => (parseFields fuel r).map (fun p => (Json.obj p.1, p.2))
      else none

/-- Comma-separated array elements up to the closing bracket. -/
def parseElems : Nat → List Char → Option (List Json × List Char)
  | 0, _ => none
  | fuel + 1, s => do
    let (v, r) ← parseVal fuel s
    match skipWs r with
    | ',' :: r2 => (parseElems fuel r2).map (fun p => (v :: p.1, p.2))
    | ']' :: r2 => some ([v], r2)
    | _ => none

/-- Comma-separated object fields up to the closing brace. -/
def parseFields : Nat → List Char → Option (List (String × Json) × List Char)
  | 0, _ => none
  | fuel + 1, s =>
    match skipWs s with
    | '"' :: r => do
      let (k, r1) ← parseStringBody r
      match skipWs r1 with
      | ':' :: r2 => do
        let (v, r3) ← parseVal fuel r2
        match skipWs r3 with
        | ',' :: r4 => (parseFields fuel r4).map (fun p => ((String.mk k, v) :: p.1, p.2))
        | '\x7d' :: r4 => some ([(String.mk k, v)], r4)
        | _ => none
      | _ => none
    | _ => none

end

/-- Insertion into the association list modelling a Python `dict`: a repeated
key keeps its first position but takes the new value, as `dict` does when
`json.loads` meets duplicate object keys. -/
def dictInsert (kvs : List (String × Json)) (k : String) (v : Json) :
    List (String × Json) :=
  if kvs.any (fun kv => kv.1 == k) then
    kvs.map (fun kv => if kv.1 == k then (k, v) else kv)
  else kvs ++ [(k, v)]

/-- Re-fold parsed object fields through `dictInsert`, so parsed objects have
Python `dict` key semantics (no duplicate keys, last value wins). -/
def dictOfFields (kvs : List (String × Json)) : List (String × Json) :=
  kvs.foldl (fun acc kv => dictInsert acc kv.1 kv.2) []

mutual

/-- Normalize every object in a parsed value to `dict` key semantics. -/
def Json.toPy : Json → Json
  | .null => .null
  | .bool b => .bool b
  | .num n => .num n
  | .str s => .str s
  | .arr xs => .arr (Json.toPyList xs)
  | .obj kvs => .obj (dictOfFields (Json.toPyFields kvs))

/-- `Json.toPy` over array elements. -/
def Json.toPyList : List Json → List Json
  | [] => []
  | x :: rest => Json.toPy x :: Json.toPyList rest

/-- `Json.toPy` over object field values. -/
def Json.toPyFields : List (String × Json) → List (String × Json)
  | [] => []
  | (k, v) :: rest => (k, Json.toPy v) :: Json.toPyFields rest

end

/-- `json.loads`: parse the whole input as one JSON value (`none` models a
raised `json.JSONDecodeError`). -/
def json_loads (s : String) : Option Json :=
  match parseVal (2 * s.length + 2) s.data with
  | some (v, rest) => if skipWs rest = [] then some (Json.toPy v) else none
  | none => none

/-- Python truthiness (`bool(x)` is `False`) for the values the notebook can
hold: `None`, `False`, `0`, the empty string, the empty list, the empty dict. -/
def pyFalsy : Json → Bool
  | .null => true
  | .bool b => !b
  | .num n => n == 0
  | .str s => s.isEmpty
  | .arr xs => xs.isEmpty
  | .obj kvs => kvs.isEmpty

/-- Whitespace stripped by Python `str.strip()` (its ASCII core: space, tab,
newline, carriage return, vertical tab, form feed). -/
def pySpace (c : Char) : Bool :=
  c == ' ' || c == '\t' || c == '\n' || c == '\r' || c == '\x0b' || c == '\x0c'

/-- Python `s.strip()`: remove leading and trailing whitespace. -/
def pyStrip (s : String) : String :=
  String.mk (((s.data.dropWhile pySpace).reverse.dropWhile pySpace).reverse)

/-- Python `s.lower()` on the ASCII range (the notebook only compares against
the ASCII literal `"title"`). -/
def pyLower (s : String) : String :=
  String.mk (s.data.map Char.toLower)

/-- Contiguous-sublist test over characters, for Python `pat in s`. -/
def listContainsSub (pat : List Char) : List Char → Bool
  | [] => pat.isEmpty
  | c :: rest => pat.isPrefixOf (c :: rest) || listContainsSub pat rest

/-- Python substring membership `pat in s`. -/
def pyInStr (pat s : String) : Bool :=
  listContainsSub pat.data s.data

/-- Python slicing `s[:n]`. -/
def pyTruncate (s : String) (n : Nat) : String :=
  String.mk (s.data.take n)

mutual

/-- Python `repr` of a notebook value, as `str` falls back to it inside
containers.  String escaping inside `repr` is modelled as plain quoting; no
claim evaluates it on strings needing escapes. -/
def pyRepr : Json → String
  | .null => "None"
  | .bool b => if b then "True" else "False"
  | .num n => toString n
  | .str s => "'" ++ s ++ "'"
  | .arr xs => "[" ++ pyReprElems xs ++ "]"
  | .obj kvs => "\x7b" ++ pyReprFields kvs ++ "\x7d"

/-- Python `repr` of list elements, comma-separated. -/
def pyReprElems : List Json → String
  | [] => ""
  | [x] => pyRepr x
  | x :: y :: rest => pyRepr x ++ ", " ++ pyReprElems (y :: rest)

/-- Python `repr` of dict items, comma-separated. -/
def pyReprFields : List (String × Json) → String
  | [] => ""
  | [(k, v)] => "'" ++ k ++ "': " ++ pyRepr v
  | (k, v) :: kv :: rest =>
      "'" ++ k ++ "': " ++ pyRepr v ++ ", " ++ pyReprFields (kv :: rest)

end

/-- Python `str(x)`: the string itself for strings, `repr`-style rendering
otherwise (`True`, `None`, digits, bracketed containers). -/
def pyStr : Json → String
  | .str s => s
  | v => pyRepr v

/-- `TitanV2Model.process_dict_text` (notebook cell defining `TitanV2Model`):
`" ".join([str(key).strip() + " " + str(val).strip() if 'title' in
key.lower() else str(val).strip() for key, val in
single_text_dict.items()])[:30000]`.  Dict items are the association list in
insertion order; keys of the dicts reaching this method are strings (MTEB
corpus entries and `json.loads` objects), so `str(key)` is the key itself. -/
def TitanV2Model.process_dict_text (single_text_dict : List (String × Json)) : String :=
  let single_text := single_text_dict.map (fun kv =>
    if pyInStr "title" (pyLower kv.1)
    then pyStrip kv.1 ++ " " ++ pyStrip (pyStr kv.2)
    else pyStrip (pyStr kv.2))
  pyTruncate (String.intercalate " " single_text) 30000

/-- `TitanV2Model.reorg_text`: a dict is flattened through
`process_dict_text`; a falsy value is replaced by `"0"`; then the code tries
`json.loads` on the result and, when that yields a dict, flattens it too.
The bare `except: pass` swallows both the `TypeError` of `json.loads` on a
non-string and the `AttributeError` of `process_dict_text` on a parsed
non-dict; in both cases (and on a parse failure) the assignment never
happens and the value is returned unchanged. -/
def TitanV2Model.reorg_text (single_text : Json) : Json :=
  let st1 := match single_text with
    | .obj d => Json.str (TitanV2Model.process_dict_text d)
    | v => v
  let st2 := if pyFalsy st1 then Json.str "0" else st1
  match st2 with
  | .str s =>
    match json_loads s with
    | some (.obj d) => Json.str (TitanV2Model.process_dict_text d)
    | _ => st2
  | _ => st2

/-- The retry configuration `get_bedrock_client` builds once:
`Config(retries={"max_attempts": 10, "mode": "standard"})`. -/
structure RetryConfig where
  max_attempts : Nat
  mode : String
deriving Repr, DecidableEq

/-- The SDK client as configured by `get_bedrock_client`: region, service
name, retry policy.  Credentials and transport live in the vendor SDK and
are outside the model; the optional assume-role branch only changes the
credentials passed along, not these fields. -/
structure BedrockClient where
  region_name : String
  service_name : String
  retries : RetryConfig
deriving Repr, DecidableEq

/-- `get_bedrock_client(region=..., runtime=...)`: the client is created with
the region, the service name `'bedrock-runtime'` (or `'bedrock'` when
`runtime` is false) and a retry config of 10 standard-mode attempts. -/
def get_bedrock_client (region : String) (runtime : Bool) : BedrockClient :=
  ⟨region, if runtime then "bedrock-runtime" else "bedrock", ⟨10, "standard"⟩⟩

/-- One `invoke_model` request as the SDK receives it: the serialized body
and the `modelId`, `accept` and `contentType` parameters. -/
structure InvokeRequest where
  body : String
  modelId : String
  accept : String
  contentType : String
deriving Repr, DecidableEq

/-- Exceptions that repository code can propagate: whatever the vendor SDK
raised (its message kept verbatim), a `json.JSONDecodeError` from
parsing the response body, a `KeyError` from `response_body['embedding']`,
or a `TypeError`/`AttributeError` from subscripting a non-dict response. -/
inductive PyErr where
  | sdk (e : String)
  | jsonDecode
  | keyError (k : String)
  | typeError
  | attributeError
deriving Repr, DecidableEq

/-- The remote side of one SDK `invoke_model` call: either an exception
raised inside the vendor SDK (after its own internal retries) or the raw
text of the response body stream. -/
def SdkOracle : Type := InvokeRequest → Except String String

/-- Python `response_body['embedding']`-style subscription: `KeyError` when
the key is absent, `TypeError` when the value is not a dict. -/
def Json.getItem (v : Json) (k : String) : Except PyErr Json :=
  match v with
  | .obj kvs =>
    match kvs.lookup k with
    | some r => .ok r
    | none => .error (.keyError k)
  | _ => .error .typeError

/-- Python `response_body.get("embedding")`: `None` when the key is absent,
`AttributeError` when the value is not a dict. -/
def Json.getOrNone (v : Json) (k : String) : Except PyErr Json :=
  match v with
  | .obj kvs => .ok ((kvs.lookup k).getD Json.null)
  | _ => .error .attributeError

/-- The `TitanEmbeddings` helper: class attributes `accept` and
`content_type` (both `"application/json"`) and the instance attributes set
in `__init__`. -/
structure TitanEmbeddings where
  model_id : String
  bedrock_boto3 : BedrockClient
  accept : String
  content_type : String
deriving Repr, DecidableEq

/-- `TitanEmbeddings.__init__` on the branch the notebook uses (an explicit
`boto3_client` is always passed): store the client and the model id; the
class attributes hold `"application/json"`. -/
def TitanEmbeddings.init (model_id : String) (boto3_client : BedrockClient) :
    TitanEmbeddings :=
  ⟨model_id, boto3_client, "application/json", "application/json"⟩

/-- The three-field request object `__call__` serializes:
`{"inputText": text, "dimensions": dimensions, "normalize": normalize}`. -/
def titanRequestJson (text : Json) (dimensions : Int) (normalize : Bool) : Json :=
  Json.obj [("inputText", text), ("dimensions", Json.num dimensions),
            ("normalize", Json.bool normalize)]

/-- The full `invoke_model` request `__call__` issues: the dumped body plus
`modelId=self.model_id, accept=self.accept, contentType=self.content_type`. -/
def mkTitanRequest (self : TitanEmbeddings) (text : Json) (dimensions : Int)
    (normalize : Bool) : InvokeRequest :=
  ⟨Json.dumps (titanRequestJson text dimensions normalize),
   self.model_id, self.accept, self.content_type⟩

/-- `TitanEmbeddings.__call__`: serialize the three-field body, make one SDK
`invoke_model` call, `json.loads` the response body, return its
`'embedding'` entry.  The result records the instance after the call (the
method assigns no attribute), the list of SDK calls issued, and the returned
value or propagated exception. -/
def TitanEmbeddings.call (self : TitanEmbeddings) (oracle : SdkOracle)
    (text : Json) (dimensions : Int) (normalize : Bool) :
    TitanEmbeddings × List InvokeRequest × Except PyErr Json :=
  let req := mkTitanRequest self text dimensions normalize
  let result : Except PyErr Json :=
    match oracle req with
    | .error e => .error (.sdk e)
    | .ok raw =>
      match json_loads raw with
      | none => .error .jsonDecode
      | some response_body => response_body.getItem "embedding"
  (self, [req], result)

/-- The `TitanV2Model` MTEB adapter: the instance attributes set by
`__init__` / `_init_connection`. -/
structure TitanV2Model where
  br_embeddings : Option TitanEmbeddings
  dim : Int
deriving Repr, DecidableEq

/-- `TitanV2Model._init_connection(dim=256)`: build a fresh client through
`get_bedrock_client()` (default region, runtime service), wrap it in a
`TitanEmbeddings` helper stored in `self.br_embeddings`, and set `self.dim`. -/
def TitanV2Model.init_connection (_self : TitanV2Model) (dim : Int) : TitanV2Model :=
  let boto3_bedrock_runtime := get_bedrock_client "us-east-1" true
  ⟨some (TitanEmbeddings.init "amazon.titan-embed-text-v2:0" boto3_bedrock_runtime), dim⟩

/-- `TitanV2Model.__init__`: `self.br_embeddings = None` then
`self._init_connection()` with the default `dim=256` (the pre-init `dim`
placeholder is irrelevant, `_init_connection` overwrites both fields). -/
def TitanV2Model.init : TitanV2Model :=
  TitanV2Model.init_connection ⟨none, 0⟩ 256

/-- `TitanV2Model.invoke_model`: loop over `text_list`, reorganize each
element, and call the MODULE-LEVEL `bedrock_embeddings` helper (not
`self.br_embeddings`) with `dimensions=self.dim, normalize=True`,
accumulating `list_embeddings` in order.  The global helper is passed in
explicitly here, together with the oracle; the result carries the
concatenated trace of SDK calls and either the embedding list or the first
propagated exception (which aborts the loop). -/
def TitanV2Model.invoke_model (bedrock_embeddings : TitanEmbeddings)
    (oracle : SdkOracle) (self : TitanV2Model) :
    List Json → List InvokeRequest × Except PyErr (List Json)
  | [] => ([], .ok [])
  | single_text :: rest =>
    let r := bedrock_embeddings.call oracle (TitanV2Model.reorg_text single_text)
               self.dim true
    match r.2.2 with
    | .error e => (r.2.1, .error e)
    | .ok single_embed =>
      match TitanV2Model.invoke_model bedrock_embeddings oracle self rest with
      | (trace, .error e) => (r.2.1 ++ trace, .error e)
      | (trace, .ok embs) => (r.2.1 ++ trace, .ok (single_embed :: embs))

/-- `TitanV2Model.reshape_titan_embeddings`: returns its argument unchanged. -/
def TitanV2Model.reshape_titan_embeddings (query_embeddings : List Json) : List Json :=
  query_embeddings

/-- `TitanV2Model.encode`: `invoke_model` then `reshape_titan_embeddings`
(the `np.array` conversion is a container change in an external library and
is not modelled; the list of vectors is kept). -/
def TitanV2Model.encode (bedrock_embeddings : TitanEmbeddings) (oracle : SdkOracle)
    (self : TitanV2Model) (queries : List Json) :
    List InvokeRequest × Except PyErr (List Json) :=
  let r := TitanV2Model.invoke_model bedrock_embeddings oracle self queries
  (r.1, r.2.map TitanV2Model.reshape_titan_embeddings)

/-- `TitanV2Model.encode_queries`: same body as `encode`. -/
def TitanV2Model.encode_queries (bedrock_embeddings : TitanEmbeddings)
    (oracle : SdkOracle) (self : TitanV2Model) (queries : List Json) :
    List InvokeRequest × Except PyErr (List Json) :=
  let r := TitanV2Model.invoke_model bedrock_embeddings oracle self queries
  (r.1, r.2.map TitanV2Model.reshape_titan_embeddings)

/-- `TitanV2Model.encode_corpus`: same body as `encode`, applied to the
corpus list. -/
def TitanV2Model.encode_corpus (bedrock_embeddings : TitanEmbeddings)
    (oracle : SdkOracle) (self : TitanV2Model) (corpus : List Json) :
    List InvokeRequest × Except PyErr (List Json) :=
  let r := TitanV2Model.invoke_model bedrock_embeddings oracle self corpus
  (r.1, r.2.map TitanV2Model.reshape_titan_embeddings)

/-- The client built in the connection-test cell:
`boto3_bedrock_runtime = get_bedrock_client()`. -/
def boto3_bedrock_runtime : BedrockClient :=
  get_bedrock_client "us-east-1" true

/-- The module-level helper built in the connection-test cell:
`bedrock_embeddings = TitanEmbeddings(model_id="amazon.titan-embed-text-v2:0",
boto3_client=boto3_bedrock_runtime)`.  This is the object
`TitanV2Model.invoke_model` actually calls. -/
def bedrock_embeddings : TitanEmbeddings :=
  TitanEmbeddings.init "amazon.titan-embed-text-v2:0" boto3_bedrock_runtime

/-- `prompt_data` from the inline-invocation cell (the backslash-newline
line continuations inside the Python literal insert nothing). -/
def prompt_data : String :=
  "Amazon Bedrock supports foundation models from industry-leading providers such as AI21 Labs, Anthropic, Stability AI, and Amazon. Choose the model that is best suited to achieving your unique goals."

/-- `modelId` from the inline-invocation cell. -/
def modelId : String := "amazon.titan-embed-text-v2:0"

/-- `accept` from the inline-invocation cell. -/
def accept : String := "application/json"

/-- `contentType` from the inline-invocation cell. -/
def contentType : String := "application/json"

/-- `sample_model_input` from the inline-invocation cell:
`{"inputText": prompt_data, "dimensions": 256, "normalize": True}`. -/
def sample_model_input : Json :=
  Json.obj [("inputText", Json.str prompt_data), ("dimensions", Json.num 256),
            ("normalize", Json.bool true)]

/-- `body = json.dumps(sample_model_input)` from the inline-invocation cell. -/
def inline_body : String := Json.dumps sample_model_input

/-- The request the inline-invocation cell passes to
`boto3_bedrock_runtime.invoke_model`. -/
def inline_request : InvokeRequest :=
  ⟨inline_body, modelId, accept, contentType⟩

/-- The inline-invocation cell end to end: issue the request, parse the
response with `json.loads`, and read `response_body.get("embedding")`. -/
def inline_invoke (oracle : SdkOracle) : Except PyErr Json :=
  match oracle inline_request with
  | .error e => .error (.sdk e)
  | .ok raw =>
    match json_loads raw with
    | none => .error .jsonDecode
    | some response_body => response_body.getOrNone "embedding"

/-- The truncation `[:n]` never yields more than `n` characters. -/
theorem pyTruncate_length_le (s : String) (n : Nat) : (pyTruncate s n).length ≤ n := by
  show (s.data.take n).length ≤ n
  rw [List.length_take]
  exact Nat.min_le_left _ _

/-- C1: every call `TitanEmbeddings.__call__(text, dimensions, normalize)`
issues exactly one SDK `invoke_model` call, whose request body is exactly the
JSON serialization of the three-field object
`{"inputText": text, "dimensions": dimensions, "normalize": normalize}` —
no other fields — with the instance's model id, accept and content type. -/
theorem C1_request_exact_shape (self : TitanEmbeddings) (oracle : SdkOracle)
    (text : Json) (dimensions : Int) (normalize : Bool) :
    (self.call oracle text dimensions normalize).2.1 =
      [⟨Json.dumps (Json.obj [("inputText", text),
          ("dimensions", Json.num dimensions),
          ("normalize", Json.bool normalize)]),
        self.model_id, self.accept, self.content_type⟩] := rfl

/-- C2: `TitanEmbeddings.__call__` returns the `'embedding'` field of the
parsed response unchanged; in particular, when that field is a list whose
length equals the requested dimension `d`, the returned list has length `d`
(no truncation, padding or rescaling). -/
theorem C2_embedding_returned_unchanged (self : TitanEmbeddings)
    (oracle : SdkOracle) (text : Json) (d : Int) (nrm : Bool)
    (raw : String) (rb emb : Json)
    (h1 : oracle (mkTitanRequest self text d nrm) = Except.ok raw)
    (h2 : json_loads raw = some rb)
    (h3 : rb.getItem "embedding" = Except.ok emb) :
    (self.call oracle text d nrm).2.2 = Except.ok emb ∧
    (∀ v : List Json, emb = Json.arr v → Int.ofNat v.length = d →
      ∃ w : List Json,
        (self.call oracle text d nrm).2.2 = Except.ok (Json.arr w) ∧
        Int.ofNat w.length = d) := by
  have hres : (self.call oracle text d nrm).2.2 = Except.ok emb := by
    simp only [TitanEmbeddings.call, h1, h2, h3]
  exact ⟨hres, fun v hv hd => ⟨v, by rw [hres, hv], hd⟩⟩

/-- A successful remote response used to instantiate C2. -/
def c2Oracle : SdkOracle := fun _ => Except.ok "\x7b\"embedding\": [1, 2]\x7d"

/-- C2 instantiated: a concrete two-element embedding comes back unchanged,
with its length equal to the two that the response carried. -/
theorem C2_embedding_returned_unchanged_witness :
    (bedrock_embeddings.call c2Oracle (Json.str "hi") 256 true).2.2 =
      Except.ok (Json.arr [Json.num 1, Json.num 2]) ∧
    (∃ w : List Json,
      (bedrock_embeddings.call c2Oracle (Json.str "hi") 256 true).2.2 =
        Except.ok (Json.arr w) ∧ Int.ofNat w.length = 2) := by
  exact ⟨(C2_embedding_returned_unchanged bedrock_embeddings c2Oracle
    (Json.str "hi") 256 true "\x7b\"embedding\": [1, 2]\x7d"
    (Json.obj [("embedding", Json.arr [Json.num 1, Json.num 2])])
    (Json.arr [Json.num 1, Json.num 2]) rfl rfl rfl).1,
    (C2_embedding_returned_unchanged bedrock_embeddings c2Oracle
    (Json.str "hi") 2 true "\x7b\"embedding\": [1, 2]\x7d"
    (Json.obj [("embedding", Json.arr [Json.num 1, Json.num 2])])
    (Json.arr [Json.num 1, Json.num 2]) rfl rfl rfl).2
      [Json.num 1, Json.num 2] rfl rfl⟩

/-- C6: `__call__` modifies no attribute of its instance — `model_id`,
`bedrock_boto3`, `accept` and `content_type` are unchanged after the call —
and two successive calls with identical arguments therefore build identical
request lists. -/
theorem C6_call_leaves_instance_unchanged (self : TitanEmbeddings)
    (oracle : SdkOracle) (text : Json) (d : Int) (nrm : Bool) :
    (self.call oracle text d nrm).1.model_id = self.model_id ∧
    (self.call oracle text d nrm).1.bedrock_boto3 = self.bedrock_boto3 ∧
    (self.call oracle text d nrm).1.accept = self.accept ∧
    (self.call oracle text d nrm).1.content_type = self.content_type ∧
    ((self.call oracle text d nrm).1.call oracle text d nrm).2.1 =
      (self.call oracle text d nrm).2.1 :=
  ⟨rfl, rfl, rfl, rfl, rfl⟩

/-- C8: `reorg_text` maps every falsy input — `None`, the empty string, an
empty dict, an empty list — to the one-character string `"0"`, and the
request body then built for such an input carries the text `"0"`. -/
theorem C8_falsy_inputs_become_zero :
    TitanV2Model.reorg_text Json.null = Json.str "0" ∧
    TitanV2Model.reorg_text (Json.str "") = Json.str "0" ∧
    TitanV2Model.reorg_text (Json.obj []) = Json.str "0" ∧
    TitanV2Model.reorg_text (Json.arr []) = Json.str "0" ∧
    (mkTitanRequest bedrock_embeddings (TitanV2Model.reorg_text Json.null)
        256 true).body =
      Json.dumps (Json.obj [("inputText", Json.str "0"),
        ("dimensions", Json.num 256), ("normalize", Json.bool true)]) :=
  ⟨rfl, rfl, rfl, rfl, rfl⟩

/-- C9: on any dict, `process_dict_text` returns the space-join, in the
dict's iteration order, of `"key value"` (both stripped) for keys whose
lowercased form contains `"title"` and of the stripped value for the other
keys, truncated to (hence of length at most) 30000 characters. -/
theorem C9_process_dict_text_shape (d : List (String × Json)) :
    TitanV2Model.process_dict_text d =
      pyTruncate (String.intercalate " " (d.map (fun kv =>
        if pyInStr "title" (pyLower kv.1)
        then pyStrip kv.1 ++ " " ++ pyStrip (pyStr kv.2)
        else pyStrip (pyStr kv.2)))) 30000 ∧
    (TitanV2Model.process_dict_text d).length ≤ 30000 :=
  ⟨rfl, pyTruncate_length_le _ _⟩

/-- C4: the only retry policy is the one configured once at client
construction (`max_attempts` 10, `standard` mode); an SDK exception
propagates unchanged out of `__call__` (no catch, no wrapping); `__call__`
fails exactly when the SDK call or the response parsing fails; and
`TitanV2Model.invoke_model` propagates the exception of a failing element
call unchanged. -/
theorem C4_sdk_errors_propagate :
    (∀ (region : String) (runtime : Bool),
      (get_bedrock_client region runtime).retries = ⟨10, "standard"⟩) ∧
    (∀ (self : TitanEmbeddings) (oracle : SdkOracle) (text : Json) (d : Int)
       (nrm : Bool) (e : String),
      oracle (mkTitanRequest self text d nrm) = Except.error e →
      (self.call oracle text d nrm).2.2 = Except.error (PyErr.sdk e)) ∧
    (∀ (self : TitanEmbeddings) (oracle : SdkOracle) (text : Json) (d : Int)
       (nrm : Bool),
      (self.call oracle text d nrm).2.2.isOk = false ↔
        (∃ e, oracle (mkTitanRequest self text d nrm) = Except.error e) ∨
        (∃ raw, oracle (mkTitanRequest self text d nrm) = Except.ok raw ∧
          json_loads raw = none) ∨
        (∃ raw rb, oracle (mkTitanRequest self text d nrm) = Except.ok raw ∧
          json_loads raw = some rb ∧ (rb.getItem "embedding").isOk = false)) ∧
    (∀ (g : TitanEmbeddings) (oracle : SdkOracle) (m : TitanV2Model) (t : Json)
       (ts : List Json) (e : PyErr),
      (g.call oracle (TitanV2Model.reorg_text t) m.dim true).2.2 = Except.error e →
      (TitanV2Model.invoke_model g oracle m (t :: ts)).2 = Except.error e) ∧
    (∀ (g : TitanEmbeddings) (oracle : SdkOracle) (m : TitanV2Model) (t : Json)
       (ts : List Json) (emb : Json) (e : PyErr),
      (g.call oracle (TitanV2Model.reorg_text t) m.dim true).2.2 = Except.ok emb →
      (TitanV2Model.invoke_model g oracle m ts).2 = Except.error e →
      (TitanV2Model.invoke_model g oracle m (t :: ts)).2 = Except.error e) := by
  refine ⟨fun _ _ => rfl, ?_, ?_, ?_, ?_⟩
  · intro self oracle text d nrm e h
    simp only [TitanEmbeddings.call, h]
  · intro self oracle text d nrm
    cases h : oracle (mkTitanRequest self text d nrm) with
    | error e =>
      simp only [TitanEmbeddings.call, h, Except.isOk]
      exact ⟨fun _ => Or.inl ⟨e, rfl⟩, fun _ => rfl⟩
    | ok raw =>
      cases h2 : json_loads raw with
      | none =>
        simp only [TitanEmbeddings.call, h, h2, Except.isOk]
        exact ⟨fun _ => Or.inr (Or.inl ⟨raw, rfl, h2⟩), fun _ => rfl⟩
      | some rb =>
        simp only [TitanEmbeddings.call, h, h2]
        constructor
        · intro hbad
          exact Or.inr (Or.inr ⟨raw, rb, rfl, h2, hbad⟩)
        · rintro (⟨e, he⟩ | ⟨raw2, hr, hl⟩ | ⟨raw2, rb2, hr, hl, hbad⟩)
          · cases he
          · cases hr
            rw [h2] at hl
            cases hl
          · cases hr
            rw [h2] at hl
            injection hl with h3
            subst h3
            exact hbad
  · intro g oracle m t ts e h
    simp only [TitanV2Model.invoke_model, h]
  · intro g oracle m t ts emb e h1 h2
    simp only [TitanV2Model.invoke_model, h1]
    rcases hrec : TitanV2Model.invoke_model g oracle m ts with ⟨trace, res⟩
    rw [hrec] at h2
    simp only at h2
    subst h2
    simp only

/-- An SDK call that raises, used to instantiate C4. -/
def c4Oracle : SdkOracle := fun _ => Except.error "ThrottlingException"

/-- C4 instantiated: the notebook's client carries the 10-attempt standard
retry config, and a concrete SDK exception comes out of `__call__` and out
of `invoke_model` unchanged. -/
theorem C4_sdk_errors_propagate_witness :
    (get_bedrock_client "us-east-1" true).retries = ⟨10, "standard"⟩ ∧
    (bedrock_embeddings.call c4Oracle (Json.str "hi") 256 true).2.2 =
      Except.error (PyErr.sdk "ThrottlingException") ∧
    (TitanV2Model.invoke_model bedrock_embeddings c4Oracle TitanV2Model.init
        [Json.str "hi"]).2 = Except.error (PyErr.sdk "ThrottlingException") :=
  ⟨C4_sdk_errors_propagate.1 "us-east-1" true,
   C4_sdk_errors_propagate.2.1 bedrock_embeddings c4Oracle (Json.str "hi")
     256 true "ThrottlingException" rfl,
   C4_sdk_errors_propagate.2.2.2.1 bedrock_embeddings c4Oracle
     TitanV2Model.init (Json.str "hi") [] (PyErr.sdk "ThrottlingException")
     (C4_sdk_errors_propagate.2.1 bedrock_embeddings c4Oracle
       (TitanV2Model.reorg_text (Json.str "hi")) TitanV2Model.init.dim true
       "ThrottlingException" rfl)⟩

/-- The embedding `__call__` returns for a given text and dimension under a
given oracle (`null` when the call fails; used to state C5). -/
def callEmbed (g : TitanEmbeddings) (oracle : SdkOracle) (text : Json)
    (d : Int) : Json :=
  match (g.call oracle text d true).2.2 with
  | .ok e => e
  | .error _ => Json.null

/-- C5: on a list of `n` texts with all element calls succeeding,
`invoke_model` issues exactly `n` remote calls — one per element, in list
order, no batching — and returns a list of exactly `n` embeddings whose
`i`-th element is the embedding obtained for `reorg_text` of the `i`-th
input. -/
theorem C5_one_call_per_element (g : TitanEmbeddings) (oracle : SdkOracle)
    (m : TitanV2Model) (ts : List Json)
    (hok : ∀ t ∈ ts,
      (g.call oracle (TitanV2Model.reorg_text t) m.dim true).2.2.isOk = true) :
    (TitanV2Model.invoke_model g oracle m ts).1 =
      ts.map (fun t => mkTitanRequest g (TitanV2Model.reorg_text t) m.dim true) ∧
    (TitanV2Model.invoke_model g oracle m ts).2 =
      Except.ok (ts.map (fun t =>
        callEmbed g oracle (TitanV2Model.reorg_text t) m.dim)) := by
  induction ts with
  | nil => exact ⟨rfl, rfl⟩
  | cons t rest ih =>
    have hokt := hok t (List.mem_cons_self t rest)
    have hokr : ∀ t2 ∈ rest,
        (g.call oracle (TitanV2Model.reorg_text t2) m.dim true).2.2.isOk = true :=
      fun t2 ht2 => hok t2 (List.mem_cons_of_mem t ht2)
    obtain ⟨ihtrace, ihres⟩ := ih hokr
    cases hcall : (g.call oracle (TitanV2Model.reorg_text t) m.dim true).2.2 with
    | error e => rw [hcall] at hokt; simp [Except.isOk, Except.toBool] at hokt
    | ok emb =>
      have hemb : callEmbed g oracle (TitanV2Model.reorg_text t) m.dim = emb := by
        simp [callEmbed, hcall]
      constructor
      · simp only [TitanV2Model.invoke_model, hcall]
        rcases hrec : TitanV2Model.invoke_model g oracle m rest with ⟨trace, res⟩
        rw [hrec] at ihtrace ihres
        simp only at ihtrace ihres
        subst ihres
        simp [TitanEmbeddings.call, ihtrace]
      · simp only [TitanV2Model.invoke_model, hcall]
        rcases hrec : TitanV2Model.invoke_model g oracle m rest with ⟨trace, res⟩
        rw [hrec] at ihres
        simp only at ihres
        subst ihres
        simp [hemb]

/-- A remote endpoint answering every request with a fixed one-element
embedding, used to instantiate C5. -/
def c5Oracle : SdkOracle := fun _ => Except.ok "\x7b\"embedding\": [7]\x7d"

/-- C5 instantiated on a two-element input list: two requests, in order, and
two embeddings, one per input. -/
theorem C5_one_call_per_element_witness :
    (TitanV2Model.invoke_model bedrock_embeddings c5Oracle TitanV2Model.init
        [Json.str "a", Json.str "b"]).1 =
      [Json.str "a", Json.str "b"].map (fun t =>
        mkTitanRequest bedrock_embeddings (TitanV2Model.reorg_text t)
          TitanV2Model.init.dim true) ∧
    (TitanV2Model.invoke_model bedrock_embeddings c5Oracle TitanV2Model.init
        [Json.str "a", Json.str "b"]).2 =
      Except.ok ([Json.str "a", Json.str "b"].map (fun t =>
        callEmbed bedrock_embeddings c5Oracle (TitanV2Model.reorg_text t)
          TitanV2Model.init.dim)) :=
  C5_one_call_per_element bedrock_embeddings c5Oracle TitanV2Model.init
    [Json.str "a", Json.str "b"] (by decide)

/-- When `response_body['embedding']` succeeds, `response_body.get("embedding")`
returns the same value. -/
theorem getItem_ok_imp_getOrNone (v : Json) (k : String) (x : Json)
    (h : v.getItem k = Except.ok x) : v.getOrNone k = Except.ok x := by
  cases v <;> simp only [Json.getItem] at h <;> try cases h
  case obj kvs =>
    cases hl : kvs.lookup k with
    | some r =>
      rw [hl] at h
      injection h with h'
      subst h'
      simp [Json.getOrNone, hl]
    | none =>
      rw [hl] at h
      cases h

/-- C7: the inline invocation path of the notebook and the helper call
`bedrock_embeddings(text=prompt_data, dimensions=256, normalize=True)` build
identical request bodies (the helper's one request IS the inline request),
and, given the same remote response carrying an embedding, both return that
same embedding. -/
theorem C7_inline_equals_helper (oracle : SdkOracle) (raw : String)
    (rb emb : Json)
    (h1 : json_loads raw = some rb)
    (h2 : rb.getItem "embedding" = Except.ok emb) :
    (bedrock_embeddings.call oracle (Json.str prompt_data) 256 true).2.1 =
      [inline_request] ∧
    (oracle inline_request = Except.ok raw →
      inline_invoke oracle = Except.ok emb ∧
      (bedrock_embeddings.call oracle (Json.str prompt_data) 256 true).2.2 =
        Except.ok emb) := by
  refine ⟨rfl, fun hok => ⟨?_, ?_⟩⟩
  · simp only [inline_invoke, hok, h1]
    exact getItem_ok_imp_getOrNone rb "embedding" emb h2
  · have hok2 : oracle (mkTitanRequest bedrock_embeddings
        (Json.str prompt_data) 256 true) = Except.ok raw := hok
    simp only [TitanEmbeddings.call, hok2, h1, h2]

/-- A remote response used to instantiate C7. -/
def c7Oracle : SdkOracle := fun _ => Except.ok "\x7b\"embedding\": [3, 4]\x7d"

/-- C7 instantiated: with a concrete response, the helper's request list is
exactly the inline request and both paths return the same embedding. -/
theorem C7_inline_equals_helper_witness :
    (bedrock_embeddings.call c7Oracle (Json.str prompt_data) 256 true).2.1 =
      [inline_request] ∧
    inline_invoke c7Oracle = Except.ok (Json.arr [Json.num 3, Json.num 4]) ∧
    (bedrock_embeddings.call c7Oracle (Json.str prompt_data) 256 true).2.2 =
      Except.ok (Json.arr [Json.num 3, Json.num 4]) := by
  have h := C7_inline_equals_helper c7Oracle "\x7b\"embedding\": [3, 4]\x7d"
    (Json.obj [("embedding", Json.arr [Json.num 3, Json.num 4])])
    (Json.arr [Json.num 3, Json.num 4]) rfl rfl
  exact ⟨h.1, (h.2 rfl).1, (h.2 rfl).2⟩

/-- C10: `invoke_model` (and `encode`, `encode_queries`, `encode_corpus`)
goes through the module-level `bedrock_embeddings` helper, never through
`self.br_embeddings`: two instances with equal `dim` but arbitrary
(different) `br_embeddings`, run against the same global helper and oracle,
produce identical request traces and identical results on every input. -/
theorem C10_independent_of_br_embeddings (g : TitanEmbeddings)
    (oracle : SdkOracle) (m1 m2 : TitanV2Model) (ts : List Json)
    (hdim : m1.dim = m2.dim) :
    TitanV2Model.invoke_model g oracle m1 ts =
      TitanV2Model.invoke_model g oracle m2 ts ∧
    TitanV2Model.encode g oracle m1 ts = TitanV2Model.encode g oracle m2 ts ∧
    TitanV2Model.encode_queries g oracle m1 ts =
      TitanV2Model.encode_queries g oracle m2 ts ∧
    TitanV2Model.encode_corpus g oracle m1 ts =
      TitanV2Model.encode_corpus g oracle m2 ts := by
  have hinv : ∀ l : List Json, TitanV2Model.invoke_model g oracle m1 l =
      TitanV2Model.invoke_model g oracle m2 l := by
    intro l
    induction l with
    | nil => rfl
    | cons t rest ih => simp only [TitanV2Model.invoke_model, hdim, ih]
  exact ⟨hinv ts,
    by simp only [TitanV2Model.encode, hinv ts],
    by simp only [TitanV2Model.encode_queries, hinv ts],
    by simp only [TitanV2Model.encode_corpus, hinv ts]⟩

/-- C10 instantiated: an instance with no connection stored and the
constructed instance differ in `br_embeddings`, share `dim = 256`, and give
identical `invoke_model` results against the global helper. -/
theorem C10_independent_of_br_embeddings_witness :
    (⟨none, 256⟩ : TitanV2Model).br_embeddings ≠
      TitanV2Model.init.br_embeddings ∧
    (⟨none, 256⟩ : TitanV2Model).dim = TitanV2Model.init.dim ∧
    TitanV2Model.invoke_model bedrock_embeddings c5Oracle
        (⟨none, 256⟩ : TitanV2Model) [Json.str "q"] =
      TitanV2Model.invoke_model bedrock_embeddings c5Oracle TitanV2Model.init
        [Json.str "q"] :=
  ⟨by decide, rfl,
   (C10_independent_of_br_embeddings bedrock_embeddings c5Oracle
     (⟨none, 256⟩ : TitanV2Model) TitanV2Model.init [Json.str "q"] rfl).1⟩

/-- Every request `invoke_model` ever issues is a three-field Titan request
built from the reorganized text of some input element, with the instance's
`dim` and `normalize=True`. -/
theorem invoke_model_trace_shape (g : TitanEmbeddings) (oracle : SdkOracle)
    (m : TitanV2Model) (ts : List Json) (req : InvokeRequest)
    (hmem : req ∈ (TitanV2Model.invoke_model g oracle m ts).1) :
    ∃ t ∈ ts, req = mkTitanRequest g (TitanV2Model.reorg_text t) m.dim true := by
  induction ts with
  | nil => simp only [TitanV2Model.invoke_model, List.not_mem_nil] at hmem
  | cons t rest ih =>
    cases hcall : (g.call oracle (TitanV2Model.reorg_text t) m.dim true).2.2 with
    | error e =>
      simp only [TitanV2Model.invoke_model, hcall] at hmem
      rcases List.mem_singleton.mp hmem with h
      exact ⟨t, List.mem_cons_self t rest, h⟩
    | ok emb =>
      simp only [TitanV2Model.invoke_model, hcall] at hmem
      rcases hrec : TitanV2Model.invoke_model g oracle m rest with ⟨trace, res⟩
      rw [hrec] at hmem
      have hmem2 : req ∈ (g.call oracle (TitanV2Model.reorg_text t) m.dim
          true).2.1 ++ trace := by
        cases res with
        | error e => simpa using hmem
        | ok embs => simpa using hmem
      rcases List.mem_append.mp hmem2 with hleft | hright
      · exact ⟨t, List.mem_cons_self t rest,
          List.mem_singleton.mp hleft⟩
      · have := ih (by rw [hrec]; exact hright)
        rcases this with ⟨t2, ht2, heq⟩
        exact ⟨t2, List.mem_cons_of_mem t ht2, heq⟩

/-- C3: every request the notebook sends carries an output dimension in
{256, 512, 1024}: every request issued by `invoke_model` on a model built by
`__init__` is a Titan request with dimension 256, the inline cell's request
is the Titan request with dimension 256, and the helper-cell call issues the
same; 256 is in the allowed set. -/
theorem C3_dimension_in_allowed_set (g : TitanEmbeddings) (oracle : SdkOracle)
    (ts : List Json) (req : InvokeRequest)
    (hmem : req ∈ (TitanV2Model.invoke_model g oracle TitanV2Model.init ts).1) :
    (∃ t, req = mkTitanRequest g t 256 true) ∧
    ((256 : Int) ∈ ([256, 512, 1024] : List Int)) ∧
    inline_request = mkTitanRequest bedrock_embeddings (Json.str prompt_data)
      256 true ∧
    (bedrock_embeddings.call oracle (Json.str prompt_data) 256 true).2.1 =
      [mkTitanRequest bedrock_embeddings (Json.str prompt_data) 256 true] := by
  rcases invoke_model_trace_shape g oracle TitanV2Model.init ts req hmem with
    ⟨t, _, heq⟩
  exact ⟨⟨TitanV2Model.reorg_text t, heq⟩, by simp, rfl, rfl⟩

/-- An SDK call that raises, used to instantiate C3 (the dimension bound on
the issued request does not depend on the call outcome). -/
def c3Oracle : SdkOracle := fun _ => Except.error "AccessDeniedException"

/-- C3 instantiated: a concrete request from a concrete `invoke_model` run
is a 256-dimension Titan request, and 256 is in the allowed set. -/
theorem C3_dimension_in_allowed_set_witness :
    (mkTitanRequest bedrock_embeddings (TitanV2Model.reorg_text (Json.str "hi"))
        256 true ∈
      (TitanV2Model.invoke_model bedrock_embeddings c3Oracle TitanV2Model.init
        [Json.str "hi"]).1) ∧
    (∃ t, mkTitanRequest bedrock_embeddings
        (TitanV2Model.reorg_text (Json.str "hi")) 256 true =
      mkTitanRequest bedrock_embeddings t 256 true) ∧
    ((256 : Int) ∈ ([256, 512, 1024] : List Int)) :=
  ⟨List.mem_singleton.mpr rfl,
   (C3_dimension_in_allowed_set bedrock_embeddings c3Oracle [Json.str "hi"]
     (mkTitanRequest bedrock_embeddings
       (TitanV2Model.reorg_text (Json.str "hi")) 256 true)
     (List.mem_singleton.mpr rfl)).1,
   (C3_dimension_in_allowed_set bedrock_embeddings c3Oracle [Json.str "hi"]
     (mkTitanRequest bedrock_embeddings
       (TitanV2Model.reorg_text (Json.str "hi")) 256 true)
     (List.mem_singleton.mpr rfl)).2.1⟩
